import Mathlib

/-!
Verification development for `scripts/generate-icons.py` of the TaskTrove
repository: a shallow embedding of the icon-generation pipeline (corner
rounding, safe-zone padding, multi-resolution ICO encoding, raster-in-vector
SVG embedding, and the artifact manifest of `main`), together with theorems
checking the specified properties of each transform.

The image primitive layer (Pillow) is external to the repository; it is
modelled here by executable Lean functions that are faithful to the
interface the script relies on (output dimensions, per-pixel compositing,
mask semantics, the ICO encoder's frame generation), with each modelled
primitive documented at its definition.
-/

namespace IconGen

/-- An RGBA pixel; channel values are natural numbers (bytes 0..255 in any
well-formed image). -/
structure Pixel where
  r : Nat
  g : Nat
  b : Nat
  a : Nat
deriving DecidableEq, Repr

/-- The fully transparent pixel `(0, 0, 0, 0)`, the fill colour of every
fresh canvas in the script. -/
def Pixel.transparent : Pixel := ⟨0, 0, 0, 0⟩

/-- An in-memory raster image: dimensions plus a pixel lookup function.
Pixels outside the `width × height` bounds are irrelevant to image
semantics. -/
structure Image where
  width : Nat
  height : Nat
  pixel : Nat → Nat → Pixel

/-- Modelled: `Image.new("RGBA", (w, h), (0, 0, 0, 0))` — a fresh fully
transparent canvas (Pillow's default fill, used at lines 82, 84, 90 and 198
of the script, is colour 0). -/
def Image.new (w h : Nat) : Image :=
  ⟨w, h, fun _ _ => Pixel.transparent⟩

/-- Modelled: the external Pillow resampling primitive
`img.resize((w, h), Image.LANCZOS)`. The LANCZOS kernel itself is outside
this repository; the model is a deterministic point-sampling resize that is
faithful to the interface the script relies on: the result has exactly the
requested dimensions and depends only on the source image's pixels. -/
def resize (img : Image) (w h : Nat) : Image :=
  ⟨w, h, fun x y => img.pixel (x * img.width / w) (y * img.height / h)⟩

/-- Modelled: Pillow's per-band compositing when pasting with a mask value
`m ∈ 0..255`: `out = (dst * (255 - m) + src * m) / 255` on every band.
At `m = 255` this copies the source pixel exactly; at `m = 0` it keeps the
destination pixel exactly. -/
def compositePixel (dst src : Pixel) (m : Nat) : Pixel :=
  ⟨(dst.r * (255 - m) + src.r * m) / 255,
   (dst.g * (255 - m) + src.g * m) / 255,
   (dst.b * (255 - m) + src.b * m) / 255,
   (dst.a * (255 - m) + src.a * m) / 255⟩

/-- Modelled: `canvas.paste(src, (ox, oy), src)` — paste `src` onto `canvas`
at offset `(ox, oy)` using `src`'s own alpha band as the mask. Pixels
outside the pasted box keep the canvas's pixels. -/
def pasteMasked (canvas src : Image) (ox oy : Nat) : Image :=
  ⟨canvas.width, canvas.height, fun x y =>
    if ox ≤ x ∧ x < ox + src.width ∧ oy ≤ y ∧ y < oy + src.height then
      compositePixel (canvas.pixel x y) (src.pixel (x - ox) (y - oy))
        (src.pixel (x - ox) (y - oy)).a
    else canvas.pixel x y⟩

/-- Modelled: `canvas.paste(src, mask=mask)` with a single-channel ("L" mode)
mask image, pasted at the origin: inside `src`'s box each pixel is composited
under the mask value; outside it the canvas is kept. -/
def pasteLMask (canvas src : Image) (mask : Nat → Nat → Nat) : Image :=
  ⟨canvas.width, canvas.height, fun x y =>
    if x < src.width ∧ y < src.height then
      compositePixel (canvas.pixel x y) (src.pixel x y) (mask x y)
    else canvas.pixel x y⟩

/-- The inner size `int(canvas_size * scale)` computed by `padded`
(line 91).  Python's `int` truncates toward zero, which on the positive
values used here is the floor. -/
def innerSize (canvas_size : Nat) (scale : ℚ) : Nat :=
  (Int.floor ((canvas_size : ℚ) * scale)).toNat

/-- The paste offset `(canvas_size - inner) // 2` computed by `padded`
(line 93), the same value on both axes. -/
def pasteOffset (canvas_size : Nat) (scale : ℚ) : Nat :=
  (canvas_size - innerSize canvas_size scale) / 2

/-- Embedding of `padded(img, canvas_size, scale)` (lines 89–95): a fresh
transparent `canvas_size × canvas_size` canvas, the source resized to
`inner × inner`, pasted centered using the resized image as its own mask. -/
def padded (img : Image) (canvas_size : Nat) (scale : ℚ) : Image :=
  pasteMasked (Image.new canvas_size canvas_size)
    (resize img (innerSize canvas_size scale) (innerSize canvas_size scale))
    (pasteOffset canvas_size scale) (pasteOffset canvas_size scale)

/-- Embedding of the inline notification-icon construction of `main`
(lines 196–201): a fresh transparent 96×96 canvas, the source resized to
96×96, pasted at offset `(96 - 96) // 2 = 0` with itself as the mask. -/
def notifIcon (base : Image) : Image :=
  pasteMasked (Image.new 96 96) (resize base 96 96) ((96 - 96) / 2) ((96 - 96) / 2)

@[simp] theorem resize_width (img : Image) (w h : Nat) : (resize img w h).width = w := rfl

@[simp] theorem resize_height (img : Image) (w h : Nat) : (resize img w h).height = h := rfl

@[simp] theorem new_width (w h : Nat) : (Image.new w h).width = w := rfl

@[simp] theorem new_height (w h : Nat) : (Image.new w h).height = h := rfl

@[simp] theorem new_pixel (w h x y : Nat) : (Image.new w h).pixel x y = Pixel.transparent := rfl

/-- Compositing with a full mask value copies the source pixel exactly. -/
theorem compositePixel_full (dst src : Pixel) : compositePixel dst src 255 = src := by
  cases dst
  cases src
  simp only [compositePixel, Pixel.mk.injEq]
  refine ⟨?_, ?_, ?_, ?_⟩ <;> omega

/-- Compositing with a zero mask value keeps the destination pixel exactly. -/
theorem compositePixel_zero (dst src : Pixel) : compositePixel dst src 0 = dst := by
  cases dst
  cases src
  simp only [compositePixel, Pixel.mk.injEq]
  refine ⟨?_, ?_, ?_, ?_⟩ <;> omega

/-- Concrete sample image used to instantiate hypotheses at concrete inputs. -/
def sampleImg : Image := ⟨8, 8, fun x y => ⟨31 * x % 256, 31 * y % 256, 7, 255⟩⟩

theorem innerSize_96_23 : innerSize 96 (2/3) = 64 := by
  unfold innerSize
  norm_num
  rfl

theorem pasteOffset_96_23 : pasteOffset 96 (2/3) = 16 := by
  unfold pasteOffset
  rw [innerSize_96_23]

/-- C2: for every image, canvas size `S > 0` and scale fraction
`f ∈ (0, 1]`, `padded` returns an `S×S` canvas; the source is resized to
`innerSize S f = ⌊S·f⌋` pixels square and pasted at integer offset
`pasteOffset S f = (S - inner)/2` on both axes, every pixel of the canvas
outside that pasted box is fully transparent, and every pixel inside it is
the corresponding pixel of the resized source composited (through its own
alpha mask) over the transparent canvas. -/
theorem padded_spec (img : Image) (S : Nat) (f : ℚ)
    (hS : 0 < S) (hf0 : 0 < f) (hf1 : f ≤ 1) :
    (padded img S f).width = S ∧ (padded img S f).height = S ∧
    (∀ x y, x < S → y < S →
      (x < pasteOffset S f ∨ pasteOffset S f + innerSize S f ≤ x ∨
       y < pasteOffset S f ∨ pasteOffset S f + innerSize S f ≤ y) →
      (padded img S f).pixel x y = Pixel.transparent) ∧
    (∀ dx dy, dx < innerSize S f → dy < innerSize S f →
      (padded img S f).pixel (pasteOffset S f + dx) (pasteOffset S f + dy) =
        compositePixel Pixel.transparent
          ((resize img (innerSize S f) (innerSize S f)).pixel dx dy)
          ((resize img (innerSize S f) (innerSize S f)).pixel dx dy).a) := by
  refine ⟨rfl, rfl, ?_, ?_⟩
  · intro x y hx hy hout
    simp only [padded, pasteMasked, resize_width, resize_height, new_pixel]
    rw [if_neg]
    omega
  · intro dx dy hdx hdy
    simp only [padded, pasteMasked, resize_width, resize_height, new_pixel]
    rw [if_pos (by omega)]
    simp only [Nat.add_sub_cancel_left]

/-- Closed instance of `padded_spec` at a concrete image, canvas size 96 and
scale fraction 2/3, with every hypothesis discharged concretely. -/
theorem padded_spec_witness :
    (padded sampleImg 96 (2/3)).width = 96 ∧
    (padded sampleImg 96 (2/3)).pixel 0 0 = Pixel.transparent := by
  have h := padded_spec sampleImg 96 (2/3) (by norm_num) (by norm_num) (by norm_num)
  exact ⟨h.1, h.2.2.1 0 0 (by norm_num) (by norm_num)
    (Or.inl (by rw [pasteOffset_96_23]; norm_num))⟩

/-- C10: under the documented precondition `0 < f ≤ 1`, the inner size
`int(S · f)` computed by `padded` satisfies `inner ≤ S`, so the paste box at
offset `(S - inner)/2` lies entirely within the `S×S` canvas on both axes. -/
theorem padded_inner_bounds (S : Nat) (f : ℚ) (hf0 : 0 < f) (hf1 : f ≤ 1) :
    innerSize S f ≤ S ∧ pasteOffset S f + innerSize S f ≤ S := by
  have hmul : (S : ℚ) * f ≤ (S : ℚ) :=
    mul_le_of_le_one_right (by positivity) hf1
  have hfloor : Int.floor ((S : ℚ) * f) ≤ Int.floor ((S : ℚ)) :=
    Int.floor_le_floor hmul
  rw [Int.floor_natCast] at hfloor
  have hinner : innerSize S f ≤ S := by
    unfold innerSize
    exact Int.toNat_le.mpr hfloor
  refine ⟨hinner, ?_⟩
  unfold pasteOffset
  omega

/-- Closed instance of `padded_inner_bounds` at canvas size 96 and scale
fraction 2/3. -/
theorem padded_inner_bounds_witness :
    innerSize 96 (2/3) ≤ 96 ∧ pasteOffset 96 (2/3) + innerSize 96 (2/3) ≤ 96 :=
  padded_inner_bounds 96 (2/3) (by norm_num) (by norm_num)

/-- C7: the inline notification-glyph construction of `main` (96×96
transparent canvas, source resized to 96×96, pasted at offset 0 using itself
as the mask) is exactly the safe-zone padding transform at canvas size 96
and scale fraction 1. -/
theorem notifIcon_eq_padded (base : Image) : notifIcon base = padded base 96 1 := by
  have h1 : innerSize 96 1 = 96 := by
    unfold innerSize
    norm_num
    rfl
  have h2 : pasteOffset 96 1 = 0 := by
    unfold pasteOffset
    rw [h1]
  unfold notifIcon padded
  rw [h1, h2]

/-- Modelled: the pixel region covered by the external rasterization
primitive `ImageDraw.rounded_rectangle([0, 0, w, h], radius=r, fill=255)`
on a `w×h` mask: a pixel is covered unless it lies in one of the four `r×r`
corner squares strictly outside the corresponding quarter-circle of radius
`r` centred at `(r, r)`, `(w-r, r)`, `(r, h-r)` or `(w-r, h-r)`. -/
def inRoundedRect (w h r x y : Nat) : Prop :=
  x < w ∧ y < h ∧
  ¬(x < r ∧ y < r ∧ r * r < (r - x) * (r - x) + (r - y) * (r - y)) ∧
  ¬(w - r < x ∧ y < r ∧ r * r < (x - (w - r)) * (x - (w - r)) + (r - y) * (r - y)) ∧
  ¬(x < r ∧ h - r < y ∧ r * r < (r - x) * (r - x) + (y - (h - r)) * (y - (h - r))) ∧
  ¬(w - r < x ∧ h - r < y ∧
      r * r < (x - (w - r)) * (x - (w - r)) + (y - (h - r)) * (y - (h - r)))

instance (w h r x y : Nat) : Decidable (inRoundedRect w h r x y) := by
  unfold inRoundedRect
  infer_instance

/-- The single-channel mask built by `rounded` (lines 82–83): value 255 on
the rounded-rectangle region, 0 elsewhere — drawn without anti-aliasing, so
no intermediate values occur. -/
def maskRoundedRect (w h r : Nat) (x y : Nat) : Nat :=
  if inRoundedRect w h r x y then 255 else 0

/-- The corner radius `int(min(w, h) * radius_frac)` computed by `rounded`
(line 81). -/
def roundedRadius (img : Image) (radius_frac : ℚ) : Nat :=
  (Int.floor (((min img.width img.height : Nat) : ℚ) * radius_frac)).toNat

/-- Embedding of `rounded(img, radius_frac)` (lines 79–86): a rounded-corner
mask of radius `int(min(w, h) * radius_frac)` is drawn, and the source is
pasted onto a fresh transparent canvas of the same size through that mask.
The input image is left untouched (the result is a fresh image). -/
def rounded (img : Image) (radius_frac : ℚ) : Image :=
  pasteLMask (Image.new img.width img.height) img
    (maskRoundedRect img.width img.height (roundedRadius img radius_frac))

/-- C4: `rounded` returns a same-size image; at every in-bounds pixel inside
the rounded-rectangle region of corner radius `int(min(w, h) * f)` the
output pixel (alpha included) equals the source pixel, and at every
in-bounds pixel outside that region the output alpha is zero. The source
image itself is untouched: the result is a freshly constructed image. -/
theorem rounded_spec (img : Image) (f : ℚ) (x y : Nat)
    (hx : x < img.width) (hy : y < img.height) :
    (rounded img f).width = img.width ∧ (rounded img f).height = img.height ∧
    (inRoundedRect img.width img.height (roundedRadius img f) x y →
      (rounded img f).pixel x y = img.pixel x y) ∧
    (¬ inRoundedRect img.width img.height (roundedRadius img f) x y →
      ((rounded img f).pixel x y).a = 0) := by
  refine ⟨rfl, rfl, ?_, ?_⟩
  · intro hin
    simp only [rounded, pasteLMask, new_pixel]
    rw [if_pos ⟨hx, hy⟩]
    unfold maskRoundedRect
    rw [if_pos hin]
    exact compositePixel_full _ _
  · intro hout
    simp only [rounded, pasteLMask, new_pixel]
    rw [if_pos ⟨hx, hy⟩]
    unfold maskRoundedRect
    rw [if_neg hout, compositePixel_zero]
    rfl

theorem roundedRadius_sample : roundedRadius sampleImg (1/5) = 1 := by
  unfold roundedRadius sampleImg
  norm_num

/-- Closed instance of `rounded_spec` at a concrete image and radius
fraction 1/5: the centre pixel `(4,4)` is preserved exactly and the corner
pixel `(0,0)` has alpha zero. -/
theorem rounded_spec_witness :
    (rounded sampleImg (1/5)).pixel 4 4 = sampleImg.pixel 4 4 ∧
    ((rounded sampleImg (1/5)).pixel 0 0).a = 0 := by
  refine ⟨(rounded_spec sampleImg (1/5) 4 4 (by decide) (by decide)).2.2.1 ?_,
          (rounded_spec sampleImg (1/5) 0 0 (by decide) (by decide)).2.2.2 ?_⟩
  · rw [roundedRadius_sample]
    decide
  · rw [roundedRadius_sample]
    decide

/-- C9: the rounding mask is binary, so every pixel of the rounded output is
either exactly the corresponding source pixel (alpha included) or exactly
the fully transparent pixel `(0,0,0,0)`; no blended or partial alpha value
is introduced. -/
theorem rounded_binary (img : Image) (f : ℚ) (x y : Nat)
    (hx : x < img.width) (hy : y < img.height) :
    (rounded img f).pixel x y = img.pixel x y ∨
    (rounded img f).pixel x y = Pixel.transparent := by
  by_cases hin : inRoundedRect img.width img.height (roundedRadius img f) x y
  · left
    simp only [rounded, pasteLMask, new_pixel]
    rw [if_pos ⟨hx, hy⟩]
    unfold maskRoundedRect
    rw [if_pos hin]
    exact compositePixel_full _ _
  · right
    simp only [rounded, pasteLMask, new_pixel]
    rw [if_pos ⟨hx, hy⟩]
    unfold maskRoundedRect
    rw [if_neg hin]
    exact compositePixel_zero _ _

/-- Closed instance of `rounded_binary` at a concrete image, radius fraction
1/5 and pixel `(0, 3)`. -/
theorem rounded_binary_witness :
    (rounded sampleImg (1/5)).pixel 0 3 = sampleImg.pixel 0 3 ∨
    (rounded sampleImg (1/5)).pixel 0 3 = Pixel.transparent :=
  rounded_binary sampleImg (1/5) 0 3 (by decide) (by decide)

/-- The standard base64 alphabet used by `base64.b64encode`. -/
def b64Alphabet : List Char :=
  "ABCDEFGHIJKLMNOPQRSTUVWXYZabcdefghijklmnopqrstuvwxyz0123456789+/".toList

/-- The base64 character for a sextet value `n < 64`. -/
def sextetChar (n : Nat) : Char := b64Alphabet.getD n 'A'

/-- The sextet value of a base64 character (its index in the alphabet). -/
def charSextet (c : Char) : Nat := b64Alphabet.findIdx (fun d => d == c)

/-- Embedding of `base64.b64encode`: bytes are consumed three at a time and
emitted as four alphabet characters, with trailing groups padded by `=`. -/
def b64Encode : List Nat → List Char
  | [] => []
  | [a] => [sextetChar (a / 4), sextetChar (a % 4 * 16), '=', '=']
  | [a, b] =>
      [sextetChar (a / 4), sextetChar (a % 4 * 16 + b / 16), sextetChar (b % 16 * 4), '=']
  | a :: b :: c :: rest =>
      sextetChar (a / 4) :: sextetChar (a % 4 * 16 + b / 16) ::
      sextetChar (b % 16 * 4 + c / 64) :: sextetChar (c % 64) :: b64Encode rest

/-- Embedding of `base64.b64decode`: characters are consumed four at a time,
with `=` padding marking one- and two-byte trailing groups. -/
def b64Decode : List Char → List Nat
  | x0 :: x1 :: x2 :: x3 :: rest =>
      if x2 = '=' then [charSextet x0 * 4 + charSextet x1 / 16]
      else if x3 = '=' then
        [charSextet x0 * 4 + charSextet x1 / 16,
         charSextet x1 % 16 * 16 + charSextet x2 / 4]
      else
        (charSextet x0 * 4 + charSextet x1 / 16) ::
        (charSextet x1 % 16 * 16 + charSextet x2 / 4) ::
        (charSextet x2 % 4 * 64 + charSextet x3) :: b64Decode rest
  | _ => []

theorem charSextet_sextetChar : ∀ n, n < 64 → charSextet (sextetChar n) = n := by decide

theorem sextetChar_ne_pad : ∀ n, n < 64 → sextetChar n ≠ '=' := by decide

/-- Base64 decoding is a left inverse of base64 encoding on byte lists. -/
theorem b64Decode_b64Encode (l : List Nat) (hl : ∀ b ∈ l, b < 256) :
    b64Decode (b64Encode l) = l := by
  induction l using b64Encode.induct with
  | case1 =>
    rfl
  | case2 a =>
    have ha : a < 256 := hl a (by simp)
    simp only [b64Encode, b64Decode]
    rw [if_pos trivial]
    rw [charSextet_sextetChar (a / 4) (by omega),
        charSextet_sextetChar (a % 4 * 16) (by omega)]
    simp only [List.cons.injEq, and_true]
    omega
  | case3 a b =>
    have ha : a < 256 := hl a (by simp)
    have hb : b < 256 := hl b (by simp)
    simp only [b64Encode, b64Decode]
    rw [if_neg (sextetChar_ne_pad (b % 16 * 4) (by omega)), if_pos trivial]
    rw [charSextet_sextetChar (a / 4) (by omega),
        charSextet_sextetChar (a % 4 * 16 + b / 16) (by omega),
        charSextet_sextetChar (b % 16 * 4) (by omega)]
    simp only [List.cons.injEq, and_true]
    constructor <;> omega
  | case4 a b c rest ih =>
    have ha : a < 256 := hl a (by simp)
    have hb : b < 256 := hl b (by simp)
    have hc : c < 256 := hl c (by simp)
    simp only [b64Encode, b64Decode]
    rw [if_neg (sextetChar_ne_pad (b % 16 * 4 + c / 64) (by omega)),
        if_neg (sextetChar_ne_pad (c % 64) (by omega))]
    rw [charSextet_sextetChar (a / 4) (by omega),
        charSextet_sextetChar (a % 4 * 16 + b / 16) (by omega),
        charSextet_sextetChar (b % 16 * 4 + c / 64) (by omega),
        charSextet_sextetChar (c % 64) (by omega)]
    rw [ih (fun x hx => hl x (by simp [hx]))]
    simp only [List.cons.injEq, and_true]
    refine ⟨?_, ?_, ?_⟩ <;> omega

/-- A 4-byte big-endian serialization of a natural number (each entry is
reduced mod 256 by `pngEncode`). -/
def natBytes4 (n : Nat) : List Nat := [n / 16777216, n / 65536, n / 256, n]

/-- The four channel samples of a pixel in RGBA order. -/
def pixelBytes (p : Pixel) : List Nat := [p.r, p.g, p.b, p.a]

/-- Modelled: the external PNG codec invoked by
`img.save(buf, format="PNG")` — a deterministic, lossless serialization of
the image's dimensions and row-major RGBA samples into a byte stream (every
entry < 256). The actual PNG container layout is external to the
repository; the model keeps what the script relies on: determinism and an
exact byte payload for a given image. -/
def pngEncode (img : Image) : List Nat :=
  (natBytes4 img.width ++ natBytes4 img.height ++
    (List.range img.height).flatMap (fun y =>
      (List.range img.width).flatMap (fun x => pixelBytes (img.pixel x y)))).map
    (fun b => b % 256)

theorem pngEncode_bytes (img : Image) : ∀ b ∈ pngEncode img, b < 256 := by
  intro b hb
  unfold pngEncode at hb
  rw [List.mem_map] at hb
  obtain ⟨a, -, rfl⟩ := hb
  exact Nat.mod_lt _ (by norm_num)

/-- The SVG document produced by `save_svg_from_png` (lines 64–76), in
structured form: the interpolated `width`, `height` and `viewBox`
attributes, and the base64 payload of the embedded PNG data URI. The static
style block carries no parameters and is omitted. -/
structure SvgDoc where
  width : Nat
  height : Nat
  viewBoxW : Nat
  viewBoxH : Nat
  payload : List Char

/-- Embedding of `save_svg_from_png(img, dest)` (lines 64–76): the image is
PNG-encoded into a buffer, base64-encoded, and wrapped in an SVG element
whose `width`, `height` and `viewBox` are the image's pixel dimensions. -/
def save_svg_from_png (img : Image) : SvgDoc :=
  ⟨img.width, img.height, img.width, img.height, b64Encode (pngEncode img)⟩

/-- C3: the SVG wrapper declares `width`, `height` and `viewBox` exactly
equal to the image's pixel dimensions, and base64-decoding the embedded
data-URI payload returns exactly the PNG encoding of the same image. -/
theorem save_svg_spec (img : Image) :
    (save_svg_from_png img).width = img.width ∧
    (save_svg_from_png img).height = img.height ∧
    (save_svg_from_png img).viewBoxW = img.width ∧
    (save_svg_from_png img).viewBoxH = img.height ∧
    b64Decode (save_svg_from_png img).payload = pngEncode img :=
  ⟨rfl, rfl, rfl, rfl, b64Decode_b64Encode _ (pngEncode_bytes img)⟩

/-- Modelled: the external Pillow ICO encoder (`IcoImagePlugin._save`),
invoked by `img.save(dest, format="ICO", sizes=...)`. For each requested
size it embeds the single saved image itself when that image's dimensions
already match, and otherwise a downscaled thumbnail derived from the saved
image; requested sizes exceeding the saved image or 256 are skipped. (The
encoder also sorts and deduplicates the requested sizes; the size lists the
script uses are already sorted and duplicate-free, so that step is the
identity here and is omitted.) -/
def icoSave (im : Image) (sizes : List Nat) : List Image :=
  (sizes.filter (fun s => decide (s ≤ im.width ∧ s ≤ im.height ∧ s ≤ 256))).map
    (fun s => if im.width = s ∧ im.height = s then im else resize im s s)

/-- Embedding of `save_ico(base, dest, sizes)` (lines 57–61): the base image
is resized independently to every requested size, but only the LAST resized
image (`imgs[-1]`) is handed to the ICO encoder together with the `sizes`
keyword; the encoder then derives the other embedded sizes from that image.
(`imgs[-1]` raises in Python when `sizes` is empty; the model returns an
empty default there, a case no caller exercises.) -/
def save_ico (base : Image) (sizes : List Nat := [16, 32, 48, 64]) : List Image :=
  let imgs := sizes.map (fun s => resize base s s)
  icoSave (imgs.getLastD (Image.new 0 0)) sizes

/-- A 100×100 horizontal-gradient source image distinguishing one-step from
two-step resizing. -/
def gradImg : Image := ⟨100, 100, fun x _ => ⟨x % 256, 0, 0, 255⟩⟩

/-- C1 (evaluation at the failing input): for the default size set, the
bundle produced by `save_ico` holds one raster per requested size, but the
embedded raster for size 48 is NOT the base image resized independently to
48 — it is derived from the 64×64 intermediate (`imgs[-1]`), and on a
100×100 gradient source the two differ at pixel (1, 0). -/
theorem save_ico_frame_not_independent :
    (save_ico gradImg).length = 4 ∧
    ((save_ico gradImg).getD 2 (Image.new 0 0)).width = 48 ∧
    ((save_ico gradImg).getD 2 (Image.new 0 0)).pixel 1 0 = ⟨1, 0, 0, 255⟩ ∧
    (resize gradImg 48 48).pixel 1 0 = ⟨2, 0, 0, 255⟩ ∧
    ((save_ico gradImg).getD 2 (Image.new 0 0)).pixel 1 0 ≠
      (resize gradImg 48 48).pixel 1 0 := by
  refine ⟨rfl, rfl, rfl, rfl, ?_⟩
  decide

/-- An encoded artifact written by `main`: a raster, an ICO bundle, a
vector-wrapped raster, or a static XML descriptor. -/
inductive Artifact where
  | png : Image → Artifact
  | ico : List Image → Artifact
  | svg : SvgDoc → Artifact
  | xml : String → Artifact

/-- The progress line printed for one written artifact (lines 54, 61, 76,
178, 193 and the `save_png` calls): the encoder tag and the destination. -/
def progressLine : String × Artifact → String
  | (p, Artifact.png _) => "png -> " ++ p
  | (p, Artifact.ico _) => "ico -> " ++ p
  | (p, Artifact.svg _) => "svg -> " ++ p
  | (p, Artifact.xml _) => "xml -> " ++ p

/-- The Android resource root used by categories 6–8 of `main`. -/
def resRoot : String := "apps/mobile.pro/android/app/src/main/res/"

/-- The static foreground-bitmap descriptor written at lines 170–178. -/
def fgXmlContent : String :=
  "<bitmap xmlns:android=\"http://schemas.android.com/apk/res/android\"\n    android:src=\"@mipmap/ic_launcher_foreground\"\n    android:gravity=\"center\" />"

/-- The static white-background vector descriptor written at lines 180–193. -/
def bgXmlContent : String :=
  "<?xml version=\"1.0\" encoding=\"utf-8\"?>\n<vector xmlns:android=\"http://schemas.android.com/apk/res/android\"\n    android:width=\"108dp\"\n    android:height=\"108dp\"\n    android:viewportHeight=\"108\"\n    android:viewportWidth=\"108\">\n    <path android:fillColor=\"#FFFFFFFF\" android:pathData=\"M0,0h108v108h-108z\" />\n</vector>"

/-- The full write sequence of `main` (lines 104–202) in program order:
every destination (repo-root-relative) paired with the artifact written
there. The rounded variant is computed once (line 105) and reused for every
rounded destination; each classic launcher density computes one padded
image and writes it to both the standard and the round destination. -/
def generateArtifacts (base : Image) (radius : ℚ) : List (String × Artifact) :=
  let rounded_img := rounded base radius
  [("packages/branding/icons/tasktrove-icon.png", Artifact.png base),
   ("packages/branding/icons/tasktrove-icon.svg", Artifact.svg (save_svg_from_png base)),
   ("apps/import.pro/public/tasktrove-icon.svg", Artifact.svg (save_svg_from_png base)),
   ("apps/docs.pro/docs/public/tasktrove-icon.svg", Artifact.svg (save_svg_from_png base)),
   ("apps/web/app/icon0.svg", Artifact.svg (save_svg_from_png base)),
   ("apps/web.pro/app/icon0.svg", Artifact.svg (save_svg_from_png base)),
   ("apps/mobile.pro/app/icon0.svg", Artifact.svg (save_svg_from_png base)),
   ("apps/web/app/icon-rounded.svg", Artifact.svg (save_svg_from_png rounded_img)),
   ("apps/web.pro/app/icon-rounded.svg", Artifact.svg (save_svg_from_png rounded_img)),
   ("apps/mobile.pro/app/icon-rounded.svg", Artifact.svg (save_svg_from_png rounded_img)),
   ("apps/web/public/icon-rounded.svg", Artifact.svg (save_svg_from_png rounded_img)),
   ("apps/web.pro/public/icon-rounded.svg", Artifact.svg (save_svg_from_png rounded_img)),
   ("apps/mobile.pro/public/icon-rounded.svg", Artifact.svg (save_svg_from_png rounded_img)),
   ("apps/web/app/icon1.png", Artifact.png (resize base 96 96)),
   ("apps/mobile.pro/app/icon1.png", Artifact.png (resize base 96 96)),
   ("apps/mobile.pro/app/icon.png", Artifact.png (resize base 96 96)),
   ("apps/web/app/apple-icon.png", Artifact.png (resize base 180 180)),
   ("apps/mobile.pro/app/apple-icon.png", Artifact.png (resize base 180 180)),
   ("apps/web/app/favicon.ico", Artifact.ico (save_ico base)),
   ("apps/import.pro/app/favicon.ico", Artifact.ico (save_ico base)),
   ("apps/mobile.pro/app/favicon.ico", Artifact.ico (save_ico base)),
   (resRoot ++ "mipmap-mdpi/ic_launcher.png", Artifact.png (padded base 48 (2/3))),
   (resRoot ++ "mipmap-mdpi/ic_launcher_round.png", Artifact.png (padded base 48 (2/3))),
   (resRoot ++ "mipmap-hdpi/ic_launcher.png", Artifact.png (padded base 72 (2/3))),
   (resRoot ++ "mipmap-hdpi/ic_launcher_round.png", Artifact.png (padded base 72 (2/3))),
   (resRoot ++ "mipmap-xhdpi/ic_launcher.png", Artifact.png (padded base 96 (2/3))),
   (resRoot ++ "mipmap-xhdpi/ic_launcher_round.png", Artifact.png (padded base 96 (2/3))),
   (resRoot ++ "mipmap-xxhdpi/ic_launcher.png", Artifact.png (padded base 144 (2/3))),
   (resRoot ++ "mipmap-xxhdpi/ic_launcher_round.png", Artifact.png (padded base 144 (2/3))),
   (resRoot ++ "mipmap-xxxhdpi/ic_launcher.png", Artifact.png (padded base 192 (2/3))),
   (resRoot ++ "mipmap-xxxhdpi/ic_launcher_round.png", Artifact.png (padded base 192 (2/3))),
   (resRoot ++ "mipmap-mdpi/ic_launcher_foreground.png", Artifact.png (padded base 108 (2/3))),
   (resRoot ++ "mipmap-hdpi/ic_launcher_foreground.png", Artifact.png (padded base 162 (2/3))),
   (resRoot ++ "mipmap-xhdpi/ic_launcher_foreground.png", Artifact.png (padded base 216 (2/3))),
   (resRoot ++ "mipmap-xxhdpi/ic_launcher_foreground.png", Artifact.png (padded base 324 (2/3))),
   (resRoot ++ "mipmap-xxxhdpi/ic_launcher_foreground.png", Artifact.png (padded base 432 (2/3))),
   (resRoot ++ "drawable-v24/ic_launcher_foreground.xml", Artifact.xml fgXmlContent),
   (resRoot ++ "drawable/ic_launcher_background.xml", Artifact.xml bgXmlContent),
   (resRoot ++ "drawable/ic_stat_tasktrove.png", Artifact.png (notifIcon base))]

/-- Embedding of `main` (lines 98–204) as a whole: the file system is a map
from the source path to an optionally loadable image. A missing source
aborts with the error message of line 102, before any transform runs or
artifact is produced; otherwise the full artifact list is produced, with
one progress line per artifact followed by the terminal line. -/
def mainRun (fs : String → Option Image) (srcPath : String) (radius : ℚ) :
    Except String (List (String × Artifact) × List String) :=
  match fs srcPath with
  | none => Except.error ("Source not found: " ++ srcPath)
  | some base =>
      let arts := generateArtifacts base radius
      Except.ok (arts, arts.map progressLine ++ ["done"])

/-- Replaying a run's write sequence over a pre-existing file-system state:
each destination is fully overwritten, in program order. -/
def applyWrites (ws : List (String × Artifact)) (fs : String → Option Artifact) :
    String → Option Artifact :=
  ws.foldl (fun acc e => fun p => if p = e.1 then some e.2 else acc p) fs

theorem applyWrites_not_written (ws : List (String × Artifact))
    (fs : String → Option Artifact) (p : String) (hp : p ∉ ws.map Prod.fst) :
    applyWrites ws fs p = fs p := by
  induction ws generalizing fs with
  | nil => rfl
  | cons w t ih =>
    simp only [List.map_cons, List.mem_cons, not_or] at hp
    have h1 : applyWrites (w :: t) fs p =
        applyWrites t (fun q => if q = w.1 then some w.2 else fs q) p := rfl
    rw [h1, ih _ hp.2]
    simp only [if_neg hp.1]

theorem applyWrites_indep (ws : List (String × Artifact))
    (fs1 fs2 : String → Option Artifact) (p : String)
    (hp : p ∈ ws.map Prod.fst) :
    applyWrites ws fs1 p = applyWrites ws fs2 p := by
  induction ws generalizing fs1 fs2 with
  | nil => simp at hp
  | cons w t ih =>
    by_cases hmem : p ∈ t.map Prod.fst
    · exact ih _ _ hmem
    · have hp1 : p = w.1 := by
        simp only [List.map_cons, List.mem_cons] at hp
        tauto
      have e1 : applyWrites (w :: t) fs1 p =
          applyWrites t (fun q => if q = w.1 then some w.2 else fs1 q) p := rfl
      have e2 : applyWrites (w :: t) fs2 p =
          applyWrites t (fun q => if q = w.1 then some w.2 else fs2 q) p := rfl
      rw [e1, e2, applyWrites_not_written t _ p hmem, applyWrites_not_written t _ p hmem]
      simp [hp1]

/-- C5: the pipeline is a pure function of the source image and the radius
fraction: a run's write sequence `generateArtifacts base radius` is
determined by them alone, and at every destination the manifest writes, the
file-system content after replaying the run is independent of the
pre-existing state — so two runs over the same inputs leave identical
content at every written destination. -/
theorem run_deterministic (base : Image) (radius : ℚ)
    (fs1 fs2 : String → Option Artifact) (p : String)
    (hp : p ∈ (generateArtifacts base radius).map Prod.fst) :
    applyWrites (generateArtifacts base radius) fs1 p =
    applyWrites (generateArtifacts base radius) fs2 p :=
  applyWrites_indep _ _ _ _ hp

/-- Closed instance of `run_deterministic`: starting from an empty
file system and from a fully populated one, the branding raster destination
ends with the same content. -/
theorem run_deterministic_witness :
    applyWrites (generateArtifacts sampleImg (1/5)) (fun _ => none)
      "packages/branding/icons/tasktrove-icon.png" =
    applyWrites (generateArtifacts sampleImg (1/5))
      (fun _ => some (Artifact.png gradImg))
      "packages/branding/icons/tasktrove-icon.png" :=
  run_deterministic sampleImg (1/5) _ _ _ (by decide)

/-- C6: if the source path does not resolve, `main` aborts with the
descriptive error of line 102 and produces no artifact; if it resolves, the
run completes with the full artifact list, printing exactly one progress
line per artifact followed by the terminal completion line. -/
theorem main_exit_behavior (fs : String → Option Image) (src : String) (radius : ℚ) :
    (fs src = none →
      mainRun fs src radius = Except.error ("Source not found: " ++ src)) ∧
    (∀ base, fs src = some base →
      mainRun fs src radius =
        Except.ok (generateArtifacts base radius,
          (generateArtifacts base radius).map progressLine ++ ["done"]) ∧
      ((generateArtifacts base radius).map progressLine ++ ["done"]).length =
        (generateArtifacts base radius).length + 1 ∧
      ((generateArtifacts base radius).map progressLine ++ ["done"]).getLastD ("") =
        "done") := by
  constructor
  · intro h
    unfold mainRun
    rw [h]
  · intro base h
    refine ⟨by unfold mainRun; rw [h], by simp, by simp⟩

/-- Closed instance of `main_exit_behavior`: a file system with no source
aborts with the error message, and one with a loadable source completes
with the full artifact list and log. -/
theorem main_exit_behavior_witness :
    mainRun (fun _ => none) "icon.png" (1/5) =
      Except.error ("Source not found: " ++ "icon.png") ∧
    mainRun (fun _ => some sampleImg) "icon.png" (1/5) =
      Except.ok (generateArtifacts sampleImg (1/5),
        (generateArtifacts sampleImg (1/5)).map progressLine ++ ["done"]) :=
  ⟨(main_exit_behavior (fun _ => none) "icon.png" (1/5)).1 rfl,
   ((main_exit_behavior (fun _ => some sampleImg) "icon.png" (1/5)).2 sampleImg rfl).1⟩

/-- C8: for each of the five classic launcher densities, the standard
destination `ic_launcher.png` and the round destination
`ic_launcher_round.png` receive identical content: the one safe-zone-padded
image of that density at scale fraction 2/3. -/
theorem classic_launcher_identical (base : Image) (radius : ℚ) :
    List.lookup (resRoot ++ "mipmap-mdpi/ic_launcher.png")
      (generateArtifacts base radius) = some (Artifact.png (padded base 48 (2/3))) ∧
    List.lookup (resRoot ++ "mipmap-mdpi/ic_launcher_round.png")
      (generateArtifacts base radius) = some (Artifact.png (padded base 48 (2/3))) ∧
    List.lookup (resRoot ++ "mipmap-hdpi/ic_launcher.png")
      (generateArtifacts base radius) = some (Artifact.png (padded base 72 (2/3))) ∧
    List.lookup (resRoot ++ "mipmap-hdpi/ic_launcher_round.png")
      (generateArtifacts base radius) = some (Artifact.png (padded base 72 (2/3))) ∧
    List.lookup (resRoot ++ "mipmap-xhdpi/ic_launcher.png")
      (generateArtifacts base radius) = some (Artifact.png (padded base 96 (2/3))) ∧
    List.lookup (resRoot ++ "mipmap-xhdpi/ic_launcher_round.png")
      (generateArtifacts base radius) = some (Artifact.png (padded base 96 (2/3))) ∧
    List.lookup (resRoot ++ "mipmap-xxhdpi/ic_launcher.png")
      (generateArtifacts base radius) = some (Artifact.png (padded base 144 (2/3))) ∧
    List.lookup (resRoot ++ "mipmap-xxhdpi/ic_launcher_round.png")
      (generateArtifacts base radius) = some (Artifact.png (padded base 144 (2/3))) ∧
    List.lookup (resRoot ++ "mipmap-xxxhdpi/ic_launcher.png")
      (generateArtifacts base radius) = some (Artifact.png (padded base 192 (2/3))) ∧
    List.lookup (resRoot ++ "mipmap-xxxhdpi/ic_launcher_round.png")
      (generateArtifacts base radius) = some (Artifact.png (padded base 192 (2/3))) :=
  ⟨rfl, rfl, rfl, rfl, rfl, rfl, rfl, rfl, rfl, rfl⟩

end IconGen
